import Mathlib

/-!
# Verification development for the Satisfactory bot suite core

Shallow embedding of the core of `src/bots/common.py` and
`src/bots/watchdog_bot.py`:

* the command whitelist validator (`validate_command`, `ALLOWED_COMMANDS`,
  `ALLOWED_SYSCTL_PARAMS`) and the guarded subprocess wrapper
  (`safe_subprocess`),
* the sliding-window rate limiter (`GlobalRateLimiter.allow`),
* the persistent key-value store (`PersistentState`),
* the watchdog fault handlers and the recovery procedure
  (`ServerWatchdog.restart_server`, `can_restart`, `handle_server_down`,
  `handle_high_memory`, `handle_high_cpu`, `force_restart_cmd`).

Modelling conventions:

* Python `int` is `Int`; `float` readings (CPU percent) are `Rat` — the
  threshold comparisons in the source involve no float-rounding subtlety at
  the granularity any claim speaks about.
* Timestamps (`datetime.now()`) are `Int` seconds; one `now` value is
  threaded per call, standing for the wall clock during that call.
* External subprocess execution is an oracle `Exec`; `none` stands for the
  source's `None` results (validation rejection happens before the oracle is
  consulted, and timeouts/exceptions inside `subprocess.run` are caught by
  `safe_subprocess` and turned into `None`, so they are `none` oracle
  answers).
* `pickle` serialization of a `dict` round-trips faithfully and is modelled
  as the identity on association lists; an interrupted dump leaves a file
  that `pickle.load` cannot parse, modelled by `FileContent.corrupt`.
* Python `str.isalnum` is modelled over the ASCII alphanumerics; every
  argument the program ever validates is ASCII.
-/

/-! ## Command validator (`common.py`, lines 120-207) -/

/-- `ALLOWED_COMMANDS` from `common.py` (lines 120-130): command name to the
list of permitted argument tokens.  `chown` is validated separately. -/
def ALLOWED_COMMANDS : List (String × List String) :=
  [("systemctl", ["start", "stop", "restart", "status", "is-active", "is-failed"]),
   ("sysctl", ["-n", "-w"]),
   ("renice", ["-n", "-p"]),
   ("ionice", ["-c1", "-c2", "-c3", "-n0", "-n1", "-n2", "-n3", "-n4", "-n5", "-n6", "-n7", "-p"]),
   ("taskset", ["-cp"]),
   ("pkill", ["-f"]),
   ("pgrep", ["-f"]),
   ("fail2ban-client", ["status", "set", "unbanall"]),
   ("chown", [])]

/-- `ALLOWED_SYSCTL_PARAMS` from `common.py` (lines 132-138). -/
def ALLOWED_SYSCTL_PARAMS : List String :=
  ["net.core.rmem_default", "net.core.wmem_default", "net.core.rmem_max", "net.core.wmem_max",
   "net.core.netdev_max_backlog", "net.core.somaxconn", "net.ipv4.tcp_rmem", "net.ipv4.tcp_wmem",
   "net.ipv4.tcp_congestion_control", "net.ipv4.tcp_notsent_lowat", "net.ipv4.tcp_slow_start_after_idle",
   "vm.swappiness", "vm.vfs_cache_pressure", "vm.dirty_ratio", "vm.dirty_background_ratio",
   "vm.nr_hugepages"]

/-- Python `arg.replace('-','').replace('_','').replace('.','').replace('/','')`:
replacing single characters by the empty string is character filtering. -/
def stripSeparators (s : String) : String :=
  String.mk (s.toList.filter fun c => !(c == '-' || c == '_' || c == '.' || c == '/'))

/-- Python `str.isalnum` (ASCII fragment): nonempty and all characters
alphanumeric. -/
def pyIsAlnum (s : String) : Bool :=
  !s.toList.isEmpty && s.toList.all Char.isAlphanum

/-- Python `str.endswith`. -/
def pyEndsWith (s suffixStr : String) : Bool :=
  suffixStr.toList.isSuffixOf s.toList

/-- Python `s.split(sep)[0]` for a single-character separator: the prefix of
`s` before the first occurrence of `sep` (all of `s` if `sep` is absent). -/
def pySplitHead (s : String) (sep : Char) : String :=
  String.mk (s.toList.takeWhile fun c => !(c == sep))

/-- The fallback loop of `validate_command` (`common.py` lines 170-176):
every argument must appear in the command's allowed-argument list or be
alphanumeric after removing `-`, `_`, `.`, `/`. -/
def genericArgsOk (allowed_args : List String) (args : List String) : Bool :=
  args.all fun arg => allowed_args.contains arg || pyIsAlnum (stripSeparators arg)

/-- `validate_command` from `common.py` (lines 140-176).  Structure mirrors
the source: commands outside `ALLOWED_COMMANDS` are rejected; `systemctl`,
`sysctl` (only for a leading `-w`/`-n`) and `chown` have special rules; every
other shape falls through to the generic per-argument check.  Note that a
`sysctl` argument list whose first token is neither `-w` nor `-n` reaches the
generic check, exactly as the Python `if`/`elif` chain falls through. -/
def validate_command (command : String) (args : List String) : Bool :=
  match ALLOWED_COMMANDS.find? (fun p => p.1 == command) with
  | none => false
  | some entry =>
    let allowed_args := entry.2
    if command == "systemctl" then
      match args with
      | action :: service :: _ => allowed_args.contains action && pyEndsWith service ".service"
      | _ => false
    else if command == "sysctl" then
      match args with
      | a0 :: a1 :: _ =>
        if a0 == "-w" then ALLOWED_SYSCTL_PARAMS.contains (pySplitHead a1 '=')
        else if a0 == "-n" then ALLOWED_SYSCTL_PARAMS.contains a1
        else genericArgsOk allowed_args args
      | _ => false
    else if command == "chown" then
      match args with
      | a0 :: _ :: _ => a0 == "satisfactory:satisfactory"
      | _ => false
    else genericArgsOk allowed_args args

/-! ## Guarded subprocess execution (`common.py`, lines 178-211) -/

/-- Result of a completed subprocess (`subprocess.CompletedProcess`). -/
structure CmdResult where
  returncode : Int
  stdout : String
  stderr : String
deriving DecidableEq

/-- The external command executor: what `subprocess.run` would return for a
given argument vector, or `none` for a timeout/exception. -/
def Exec : Type := List String → Option CmdResult

/-- Python `shlex.quote(arg) if ' ' in arg else arg` (`common.py` line 192):
`shlex.quote` wraps in single quotes, escaping embedded single quotes. -/
def quoteArg (s : String) : String :=
  if s.toList.contains ' ' then
    "'" ++ String.mk ((s.toList.map fun c =>
      if c == '\'' then "'\x22'\x22'".toList else [c]).flatten) ++ "'"
  else s

/-- `safe_subprocess` from `common.py` (lines 178-207): empty command lists
are rejected, the head is validated with `validate_command` against the tail,
and only then is the (quoted) vector handed to the executor.  Timeouts and
exceptions from the executor are `none` results. -/
def safe_subprocess (cmd : List String) (ex : Exec) : Option CmdResult :=
  match cmd with
  | [] => none
  | command :: args =>
    if validate_command command args then ex (cmd.map quoteArg) else none

/-- `SATISFACTORY_SERVICE` default from `common.py` line 95. -/
def SATISFACTORY_SERVICE : String := "satisfactory.service"

/-- `safe_systemctl` from `common.py` (lines 209-211). -/
def safe_systemctl (action service : String) (ex : Exec) : Option CmdResult :=
  safe_subprocess ["systemctl", action, service] ex

/-! ## Sliding-window rate limiter (`common.py`, lines 429-461)

`GlobalRateLimiter.allow` keeps a per-user deque of call timestamps, prunes
entries strictly older than the window from the front, denies when
`max_calls` entries remain, and otherwise appends `now` and grants. -/

/-- The pruning loop of `allow` (`common.py` line 449):
`while user_calls and now - user_calls[0] > self.per: popleft()`. -/
def pruneOld (now per : Int) : List Int → List Int
  | [] => []
  | t :: rest => if per < now - t then pruneOld now per rest else t :: rest

/-- The body of `GlobalRateLimiter.allow` acting on one user's deque
(`common.py` lines 446-458): returns the updated deque and the verdict. -/
def allowBucket (max_calls : Nat) (per : Int) (user_calls : List Int) (now : Int) :
    List Int × Bool :=
  let pruned := pruneOld now per user_calls
  if max_calls ≤ pruned.length then (pruned, false)
  else (pruned ++ [now], true)

/-- `GlobalRateLimiter` from `common.py` (lines 429-458): `max_calls`, window
length `per` (seconds), and the per-user store of call timestamps. -/
structure GlobalRateLimiter where
  max_calls : Nat
  per : Int
  store : List (Int × List Int)
deriving DecidableEq

/-- Write a user's deque back into the store (the Python code mutates the
deque obtained from the dict in place, creating it on first use). -/
def storeSet (store : List (Int × List Int)) (user_id : Int) (calls : List Int) :
    List (Int × List Int) :=
  if store.any (fun p => p.1 == user_id) then
    store.map fun p => if p.1 == user_id then (user_id, calls) else p
  else store ++ [(user_id, calls)]

/-- `GlobalRateLimiter.allow` from `common.py` (lines 438-458). -/
def GlobalRateLimiter.allow (rl : GlobalRateLimiter) (user_id : Int) (now : Int) :
    GlobalRateLimiter × Bool :=
  let user_calls := ((rl.store.find? fun p => p.1 == user_id).map Prod.snd).getD []
  let r := allowBucket rl.max_calls rl.per user_calls now
  ({ rl with store := storeSet rl.store user_id r.1 }, r.2)

/-- A sequence of timed calls against one user's deque: final deque and the
(chronological) list of granted call times. -/
def runCalls (max_calls : Nat) (per : Int) : List Int → List Int → List Int × List Int
  | user_calls, [] => (user_calls, [])
  | user_calls, t :: ts =>
    let r := allowBucket max_calls per user_calls t
    let rest := runCalls max_calls per r.1 ts
    (rest.1, if r.2 then t :: rest.2 else rest.2)

/-- Number of entries of `l` inside the closed interval `[a, b]`. -/
def countIn (l : List Int) (a b : Int) : Nat :=
  (l.filter fun g => decide (a ≤ g) && decide (g ≤ b)).length

example : runCalls 3 10 [] [0, 1, 2, 3] = ([0, 1, 2], [0, 1, 2]) := by decide
example : runCalls 1 10 [] [0, 10] = ([0], [0]) := by decide
example : runCalls 1 10 [] [0, 11] = ([11], [0, 11]) := by decide

/-! ## Persistent state store (`common.py`, lines 471-548)

The store holds an in-memory `dict` mirrored to a pickle file.  `save`
renames any existing file to a `.backup` sidecar, writes the full mapping,
restores permissions, and deletes the sidecar; its `except` clause catches
every failure, logs it, and returns normally.  The file system is modelled as
the contents of the primary file, the sidecar, and the `.state_key` file; a
single fault-injection flag `writeOk` covers the `pickle.dump` write (the
step the spec's crash-safety discussion is about). -/

/-- What a store file can hold: a parseable pickled mapping, bytes encrypted
under a key (never producible by `pickle.load`), or an unparseable partial
write. -/
inductive FileContent (α : Type) where
  | plain (d : List (String × α))
  | encrypted (key : Nat) (d : List (String × α))
  | corrupt
deriving DecidableEq

/-- The files `PersistentState` touches: `bot_state.pickle`, the `.backup`
sidecar, and the `.state_key` key file. -/
structure FSState (α : Type) where
  main : Option (FileContent α)
  backup : Option (FileContent α)
  key_file : Option Nat
deriving DecidableEq

/-- Python `dict` assignment `data[key] = value`: replace in place, append on
a fresh key (insertion order preserved). -/
def dictSet {α : Type} : List (String × α) → String → α → List (String × α)
  | [], k, v => [(k, v)]
  | p :: rest, k, v => if p.1 == k then (k, v) :: rest else p :: dictSet rest k v

/-- Python `dict.get` without default: `none` when the key is absent. -/
def dictGet {α : Type} (d : List (String × α)) (k : String) : Option α :=
  (d.find? fun p => p.1 == k).map Prod.snd

/-- `PersistentState._load` (`common.py` lines 504-513): read the store file
if present; any parse failure (corrupt or encrypted bytes) yields the empty
mapping. -/
def PersistentState.loadStore {α : Type} (fs : FSState α) : List (String × α) :=
  match fs.main with
  | some (FileContent.plain d) => d
  | some (FileContent.encrypted _ _) => []
  | some FileContent.corrupt => []
  | none => []

/-- `PersistentState._get_or_create_key` (`common.py` lines 483-502): `none`
without the cryptography package; otherwise the stored key, or a freshly
generated one written to the key file. -/
def PersistentState.getOrCreateKey {α : Type} (fs : FSState α) (cryptoAvailable : Bool)
    (freshKey : Nat) : Option Nat × FSState α :=
  if !cryptoAvailable then (none, fs)
  else
    match fs.key_file with
    | some k => (some k, fs)
    | none => (some freshKey, { fs with key_file := some freshKey })

instance {ε σ : Type} [DecidableEq ε] [DecidableEq σ] : DecidableEq (Except ε σ) := by
  intro a b
  cases a <;> cases b
  case error.error e e' =>
    exact if h : e = e' then Decidable.isTrue (by rw [h])
      else Decidable.isFalse (by intro hc; cases hc; exact h rfl)
  case error.ok e s => exact Decidable.isFalse (by intro hc; cases hc)
  case ok.error s e => exact Decidable.isFalse (by intro hc; cases hc)
  case ok.ok s s' =>
    exact if h : s = s' then Decidable.isTrue (by rw [h])
      else Decidable.isFalse (by intro hc; cases hc; exact h rfl)

/-- Outcome of `PersistentState.save`: the file system afterwards, the
outcome the caller observes (`Except.ok ()` is a normal return; an
`Except.error` would be an uncaught exception), and whether the `except`
branch logged a failure. -/
structure SaveResult (α : Type) where
  fs : FSState α
  outcome : Except String Unit
  loggedError : Bool
deriving DecidableEq

/-- `PersistentState.save` (`common.py` lines 515-536).  Steps: rename an
existing primary file onto the `.backup` sidecar; write the full mapping
(`pickle.dump`); chmod `0o600` (no content effect); delete the sidecar.  When
the write fails, the primary file is left unparseable, the exception is
caught and logged, and the function still returns normally — the
`Except.error` constructor is never produced. -/
def PersistentState.save {α : Type} (data : List (String × α)) (fs : FSState α)
    (writeOk : Bool) : SaveResult α :=
  let fs1 : FSState α :=
    match fs.main with
    | some c => { fs with backup := some c, main := none }
    | none => fs
  if writeOk then
    { fs := { fs1 with main := some (FileContent.plain data), backup := none },
      outcome := Except.ok (), loggedError := false }
  else
    { fs := { fs1 with main := some FileContent.corrupt },
      outcome := Except.ok (), loggedError := true }

/-- `PersistentState.get` (`common.py` lines 538-540). -/
def PersistentState.get {α : Type} (data : List (String × α)) (k : String) (dflt : α) : α :=
  (dictGet data k).getD dflt

/-- Outcome of `PersistentState.set`: the in-memory mapping, the file system,
and the observable outcome of the embedded `save`. -/
structure SetResult (α : Type) where
  data : List (String × α)
  fs : FSState α
  outcome : Except String Unit
  loggedError : Bool
deriving DecidableEq

/-- `PersistentState.set` (`common.py` lines 542-545): update the in-memory
mapping, then `save`. -/
def PersistentState.set {α : Type} (data : List (String × α)) (fs : FSState α)
    (k : String) (v : α) (writeOk : Bool) : SetResult α :=
  let data' := dictSet data k v
  let r := PersistentState.save data' fs writeOk
  { data := data', fs := r.fs, outcome := r.outcome, loggedError := r.loggedError }

example :
    (PersistentState.set ([] : List (String × Nat)) ⟨none, none, none⟩ "a" 1 true).fs.main
      = some (FileContent.plain [("a", 1)]) := by decide

/-! ## Watchdog engine (`watchdog_bot.py`, lines 43-373 and 483-503)

The handlers below return the updated state, the source's `actions` strings,
and a flag recording whether `restart_server` was invoked on the taken path.
`save_state` persists the counters and has no effect on the in-memory fields,
so it leaves no trace here; `log_admin` alerts are I/O (only the
`alert_cooldowns` bookkeeping around them is state).  The handlers' outer
`try`/`except` never fires in the embedding because executor failures are
already values (`none`). -/

/-- The environment-configured thresholds (`common.py` lines 106-108). -/
structure WatchdogConfig where
  SERVER_DOWN_THRESHOLD : Int
  MEMORY_LEAK_THRESHOLD : Int
  CONTINUOUS_HIGH_CPU : Int
deriving DecidableEq

/-- The configuration defaults: `SERVER_DOWN_THRESHOLD=2`,
`MEMORY_LEAK_THRESHOLD=12000`, `CONTINUOUS_HIGH_CPU=5`. -/
def defaultConfig : WatchdogConfig := ⟨2, 12000, 5⟩

/-- One `restart_history` entry (`watchdog_bot.py` lines 334-338). -/
structure RestartEntry where
  timestamp : Int
  reason : String
  restart_number : Int
deriving DecidableEq

/-- The mutable fields of `ServerWatchdog` the claims are about
(`watchdog_bot.py` lines 44-64).  `max_restarts_per_hour` is hard-coded to 3
in `__init__`; `restart_history` is a deque with `maxlen=10`;
`alert_cooldowns` maps alert category to last-sent time. -/
structure WatchdogState where
  down_counter : Int
  high_cpu_counter : Int
  high_memory_counter : Int
  restart_count : Int
  last_restart : Option Int
  restart_history : List RestartEntry
  alert_cooldowns : List (String × Int)
  max_restarts_per_hour : Nat
deriving DecidableEq

/-- A fresh `ServerWatchdog` (no persisted state to load). -/
def initWatchdog : WatchdogState :=
  { down_counter := 0, high_cpu_counter := 0, high_memory_counter := 0,
    restart_count := 0, last_restart := none, restart_history := [],
    alert_cooldowns := [], max_restarts_per_hour := 3 }

/-- `deque(maxlen=cap).append`: drop from the left when full. -/
def appendBounded {β : Type} (cap : Nat) (l : List β) (e : β) : List β :=
  let l' := l ++ [e]
  l'.drop (l'.length - cap)

/-- `ServerWatchdog.can_restart` (`watchdog_bot.py` lines 99-112): count the
history entries whose timestamp lies strictly inside the trailing hour and
compare against `max_restarts_per_hour`. -/
def can_restart (s : WatchdogState) (now : Int) : Bool :=
  let recent := s.restart_history.filter fun r => decide (now - 3600 < r.timestamp)
  recent.length < s.max_restarts_per_hour

/-- `ServerWatchdog.should_send_alert` (`watchdog_bot.py` lines 114-120):
10-minute cooldown per alert category. -/
def should_send_alert (s : WatchdogState) (alert_type : String) (now : Int) : Bool :=
  match (s.alert_cooldowns.find? fun p => p.1 == alert_type).map Prod.snd with
  | none => true
  | some last_alert => decide (last_alert + 10 * 60 < now)

/-- `ServerWatchdog.set_alert_cooldown` (`watchdog_bot.py` lines 122-123). -/
def set_alert_cooldown (s : WatchdogState) (alert_type : String) (now : Int) : WatchdogState :=
  { s with alert_cooldowns :=
      if s.alert_cooldowns.any (fun p => p.1 == alert_type) then
        s.alert_cooldowns.map fun p => if p.1 == alert_type then (alert_type, now) else p
      else s.alert_cooldowns ++ [(alert_type, now)] }

/-- Cooldown-gated alert emission: run `set_alert_cooldown` exactly when
`should_send_alert` holds (the alert text itself is I/O). -/
def gatedAlert (s : WatchdogState) (alert_type : String) (now : Int) : WatchdogState :=
  if should_send_alert s alert_type now then set_alert_cooldown s alert_type now else s

/-- `ServerWatchdog.restart_server` (`watchdog_bot.py` lines 307-358).
Graceful stop via `systemctl stop`; on failure, the forced stop
`['sudo', 'pkill', '-f', 'FactoryServer']` through `safe_subprocess`; if that
also yields no success, return failure.  Then `systemctl start`; on failure
return failure.  Only on success are `restart_count`, `last_restart` and
`restart_history` updated (then persisted).  The readiness poll and the
performance-tweak hook after the success bookkeeping only emit alerts and
external calls, and the function returns `true` regardless of their outcome,
so they leave no trace on the returned state. -/
def restart_server (s : WatchdogState) (reason : String) (ex : Exec) (now : Int) :
    WatchdogState × Bool :=
  let stop_result := safe_systemctl "stop" SATISFACTORY_SERVICE ex
  let stopFailed :=
    match stop_result with
    | none => true
    | some r => r.returncode != 0
  let afterStop : Bool :=
    if stopFailed then
      let kill_result := safe_subprocess ["sudo", "pkill", "-f", "FactoryServer"] ex
      match kill_result with
      | none => false
      | some r => r.returncode == 0
    else true
  if !afterStop then (s, false)
  else
    let start_result := safe_systemctl "start" SATISFACTORY_SERVICE ex
    let startFailed :=
      match start_result with
      | none => true
      | some r => r.returncode != 0
    if startFailed then (s, false)
    else
      let cnt := s.restart_count + 1
      let entry : RestartEntry := ⟨now, reason, cnt⟩
      ({ s with restart_count := cnt, last_restart := some now,
                restart_history := appendBounded 10 s.restart_history entry }, true)

/-- What a handler run produces: the state afterwards, the `actions` strings
collected, and whether `restart_server` was invoked on the taken path. -/
structure HandlerResult where
  state : WatchdogState
  actions : List String
  restartInvoked : Bool
deriving DecidableEq

/-- `ServerWatchdog.handle_server_down` (`watchdog_bot.py` lines 166-205). -/
def handle_server_down (cfg : WatchdogConfig) (s : WatchdogState) (ex : Exec) (now : Int) :
    HandlerResult :=
  let s1 := { s with down_counter := s.down_counter + 1 }
  let s2 := gatedAlert s1 "server_down" now
  if cfg.SERVER_DOWN_THRESHOLD ≤ s2.down_counter then
    if can_restart s2 now then
      let r := restart_server s2 "Watchdog: Server offline" ex now
      if r.2 then
        { state := { r.1 with down_counter := 0 }, actions := ["restart_successful"],
          restartInvoked := true }
      else
        { state := r.1, actions := ["restart_failed"], restartInvoked := true }
    else
      { state := s2, actions := ["restart_rate_limited"], restartInvoked := false }
  else
    { state := s2, actions := [], restartInvoked := false }

/-- `self.memory_warning_threshold = MEMORY_LEAK_THRESHOLD * 0.8`
(`watchdog_bot.py` line 54). -/
def memory_warning_threshold (cfg : WatchdogConfig) : Rat :=
  (cfg.MEMORY_LEAK_THRESHOLD : Rat) * (4 / 5)

/-- `ServerWatchdog.handle_high_memory` (`watchdog_bot.py` lines 207-251).
The hard-limit alert is sent unconditionally (no cooldown gate in the
source), so only the warning branch touches `alert_cooldowns`. -/
def handle_high_memory (cfg : WatchdogConfig) (s : WatchdogState) (memory_mb : Int)
    (ex : Exec) (now : Int) : HandlerResult :=
  if cfg.MEMORY_LEAK_THRESHOLD ≤ memory_mb then
    if can_restart s now then
      let r := restart_server s "Watchdog: Memory Leak" ex now
      if r.2 then
        { state := { r.1 with high_cpu_counter := 0, high_memory_counter := 0 },
          actions := ["restart_memory_leak"], restartInvoked := true }
      else
        { state := r.1, actions := ["restart_failed_memory"], restartInvoked := true }
    else
      { state := s, actions := ["restart_rate_limited_memory"], restartInvoked := false }
  else if memory_warning_threshold cfg ≤ (memory_mb : Rat) then
    let s1 := { s with high_memory_counter := s.high_memory_counter + 1 }
    if should_send_alert s1 "high_memory" now then
      { state := set_alert_cooldown s1 "high_memory" now, actions := ["memory_warning"],
        restartInvoked := false }
    else
      { state := s1, actions := [], restartInvoked := false }
  else
    if 0 < s.high_memory_counter then
      { state := { s with high_memory_counter := 0 }, actions := ["memory_normalized"],
        restartInvoked := false }
    else
      { state := s, actions := [], restartInvoked := false }

/-- `ServerWatchdog.handle_high_cpu` (`watchdog_bot.py` lines 253-305).  At
`cpu ≥ 95` the counter increments; once it reaches `CONTINUOUS_HIGH_CPU`,
players present defer the restart and pull the counter back to
`max(CONTINUOUS_HIGH_CPU - 2, 0)`; with no players a (budget-gated) restart
runs, resetting the counter on success.  Below 95 a positive counter resets
with a cooldown-gated "normalized" alert. -/
def handle_high_cpu (cfg : WatchdogConfig) (s : WatchdogState) (cpu_percent : Rat)
    (estimated_players : Int) (ex : Exec) (now : Int) : HandlerResult :=
  if 95 ≤ cpu_percent then
    let s1 := { s with high_cpu_counter := s.high_cpu_counter + 1 }
    let s2 := gatedAlert s1 "high_cpu" now
    if cfg.CONTINUOUS_HIGH_CPU ≤ s2.high_cpu_counter then
      if 0 < estimated_players then
        { state := { s2 with high_cpu_counter := max (cfg.CONTINUOUS_HIGH_CPU - 2) 0 },
          actions := ["cpu_restart_delayed_players"], restartInvoked := false }
      else
        if can_restart s2 now then
          let r := restart_server s2 "Watchdog: CPU Ueberlast" ex now
          if r.2 then
            { state := { r.1 with high_cpu_counter := 0 },
              actions := ["restart_cpu_overload"], restartInvoked := true }
          else
            { state := r.1, actions := ["restart_failed_cpu"], restartInvoked := true }
        else
          { state := s2, actions := ["restart_rate_limited_cpu"], restartInvoked := false }
    else
      { state := s2, actions := [], restartInvoked := false }
  else
    if 0 < s.high_cpu_counter then
      let s1 := gatedAlert { s with high_cpu_counter := 0 } "cpu_normalized" now
      { state := s1, actions := ["cpu_normalized"], restartInvoked := false }
    else
      { state := s, actions := [], restartInvoked := false }

/-- The `/force_restart` slash command (`watchdog_bot.py` lines 483-503): the
global per-user rate limiter and the permission check gate the handler; past
those gates it calls `watchdog.restart_server` directly, with no
`can_restart` consultation. -/
def force_restart_cmd (rateOk hasPerm : Bool) (s : WatchdogState) (ex : Exec) (now : Int) :
    HandlerResult :=
  if !rateOk then { state := s, actions := [], restartInvoked := false }
  else if !hasPerm then { state := s, actions := [], restartInvoked := false }
  else
    let r := restart_server s "Force-Restart" ex now
    { state := r.1,
      actions := [if r.2 then "force_restart_success" else "force_restart_failed"],
      restartInvoked := true }

example : validate_command "systemctl" ["restart", "game.service"] = true := by decide
example : validate_command "systemctl" ["reboot", "game.service"] = false := by decide
example : validate_command "sysctl" ["-w", "vm.swappiness=10"] = true := by decide
example : validate_command "sysctl" ["-w", "kernel.panic=1"] = false := by decide
example : validate_command "sudo" ["pkill", "-f", "FactoryServer"] = false := by decide
example : validate_command "sysctl" ["kernel.panic", "0"] = true := by decide

/-! ## Helper lemmas -/

theorem dictGet_dictSet_self {α : Type} (d : List (String × α)) (k : String) (v : α) :
    dictGet (dictSet d k v) k = some v := by
  induction d with
  | nil => simp [dictSet, dictGet, List.find?]
  | cons p rest ih =>
    by_cases h : p.1 == k
    · simp [dictSet, h, dictGet, List.find?]
    · simpa [dictSet, h, dictGet, List.find?] using ih

theorem dictGet_dictSet_ne {α : Type} (d : List (String × α)) (k k' : String) (v : α)
    (h : k' ≠ k) : dictGet (dictSet d k v) k' = dictGet d k' := by
  have hk : (k == k') = false := by
    simp only [beq_eq_false_iff_ne, ne_eq]
    exact fun hc => h hc.symm
  induction d with
  | nil => simp [dictSet, dictGet, List.find?, hk]
  | cons p rest ih =>
    by_cases hp : p.1 == k
    · have hp' : p.1 = k := by simpa using hp
      simp [dictSet, hp, dictGet, List.find?, hk, hp']
    · by_cases hq : p.1 == k'
      · simp [dictSet, hp, dictGet, List.find?, hq]
      · simpa [dictSet, hp, dictGet, List.find?, hq] using ih

theorem gatedAlert_high_cpu_counter (s : WatchdogState) (a : String) (now : Int) :
    (gatedAlert s a now).high_cpu_counter = s.high_cpu_counter := by
  unfold gatedAlert set_alert_cooldown
  split <;> rfl

theorem gatedAlert_down_counter (s : WatchdogState) (a : String) (now : Int) :
    (gatedAlert s a now).down_counter = s.down_counter := by
  unfold gatedAlert set_alert_cooldown
  split <;> rfl

theorem gatedAlert_restart_history (s : WatchdogState) (a : String) (now : Int) :
    (gatedAlert s a now).restart_history = s.restart_history := by
  unfold gatedAlert set_alert_cooldown
  split <;> rfl

theorem gatedAlert_max_restarts (s : WatchdogState) (a : String) (now : Int) :
    (gatedAlert s a now).max_restarts_per_hour = s.max_restarts_per_hour := by
  unfold gatedAlert set_alert_cooldown
  split <;> rfl

/-- `can_restart` reads only `restart_history` and `max_restarts_per_hour`. -/
theorem can_restart_eq_of (s s' : WatchdogState) (now : Int)
    (h1 : s'.restart_history = s.restart_history)
    (h2 : s'.max_restarts_per_hour = s.max_restarts_per_hour) :
    can_restart s' now = can_restart s now := by
  unfold can_restart
  rw [h1, h2]

/-- Concrete executors used in closed statements. -/
def exAllOk : Exec := fun _ => some ⟨0, "", ""⟩

def exNone : Exec := fun _ => none

/-- Executor on which the graceful stop exits nonzero and every other
invocation (any `pkill` included) reports success. -/
def exStopFails : Exec := fun cmd =>
  if cmd = ["systemctl", "stop", "satisfactory.service"] then some ⟨1, "", ""⟩
  else some ⟨0, "", ""⟩

/-! ## Claims -/

/-- C4 (counterexample): `validate_command "sysctl" ["kernel.panic", "0"]`
returns `true` although `kernel.panic` is not in `ALLOWED_SYSCTL_PARAMS`:
with a first argument other than `-w`/`-n` the `sysctl` branch falls through
to the generic character check, which accepts dotted names. -/
theorem sysctl_fallthrough_approves_nonallowlisted :
    validate_command "sysctl" ["kernel.panic", "0"] = true ∧
    ALLOWED_SYSCTL_PARAMS.contains "kernel.panic" = false := by decide

/-- C4 (amended): the two cited examples hold, and for argument lists whose
first token is `-w` (resp. `-n`) the verdict is exactly membership of the
parameter key (the part of the second token before `=`, resp. the second
token itself) in `ALLOWED_SYSCTL_PARAMS`; but lists with any other first
token are only checked by the generic character rule and can be approved
while naming a parameter outside the allow-list. -/
theorem sysctl_validation_shape :
    validate_command "sysctl" ["-w", "vm.swappiness=10"] = true ∧
    validate_command "sysctl" ["-w", "kernel.panic=1"] = false ∧
    (∀ a1 rest, validate_command "sysctl" ("-w" :: a1 :: rest)
        = ALLOWED_SYSCTL_PARAMS.contains (pySplitHead a1 '=')) ∧
    (∀ a1 rest, validate_command "sysctl" ("-n" :: a1 :: rest)
        = ALLOWED_SYSCTL_PARAMS.contains a1) ∧
    validate_command "sysctl" ["kernel.panic", "0"] = true := by
  refine ⟨by decide, by decide, ?_, ?_, by decide⟩ <;> intro a1 rest <;> rfl

/-- C5: persistent-store round trip.  After `set k v` whose write succeeds,
a fresh store loaded from the same file yields `v` at `k`, and any other key
keeps the value the in-memory mapping had. -/
theorem persistent_roundtrip {α : Type} (data : List (String × α)) (fs : FSState α)
    (k : String) (v dflt : α) (k' : String) (hk : k' ≠ k) :
    PersistentState.get
        (PersistentState.loadStore (PersistentState.set data fs k v true).fs) k dflt = v ∧
    dictGet (PersistentState.loadStore (PersistentState.set data fs k v true).fs) k'
      = dictGet data k' := by
  have hload : PersistentState.loadStore (PersistentState.set data fs k v true).fs
      = dictSet data k v := by
    unfold PersistentState.set PersistentState.save PersistentState.loadStore
    cases fs.main <;> rfl
  rw [hload]
  constructor
  · unfold PersistentState.get
    rw [dictGet_dictSet_self]
    rfl
  · exact dictGet_dictSet_ne data k k' v hk

/-- C5 (witness). -/
theorem persistent_roundtrip_witness :
    PersistentState.get
        (PersistentState.loadStore
          (PersistentState.set [("x", 7)] (⟨some (FileContent.plain [("x", 7)]), none, none⟩ : FSState Nat) "y" 9 true).fs) "y" 0 = 9 ∧
    dictGet (PersistentState.loadStore
          (PersistentState.set [("x", 7)] (⟨some (FileContent.plain [("x", 7)]), none, none⟩ : FSState Nat) "y" 9 true).fs) "x"
      = dictGet [("x", 7)] "x" :=
  persistent_roundtrip [("x", 7)] ⟨some (FileContent.plain [("x", 7)]), none, none⟩
    "y" 9 0 "x" (by decide)

/-- C6: if the primary write fails after the existing store file was renamed
to the `.backup` sidecar, the sidecar still holds the previous file content,
and the in-memory mapping is exactly the updated one, so `get` keeps serving
every value set during the process lifetime. -/
theorem save_failure_keeps_backup {α : Type} (data : List (String × α)) (fs : FSState α)
    (k : String) (v : α) (c : FileContent α) (hmain : fs.main = some c) :
    (PersistentState.set data fs k v false).fs.backup = some c ∧
    (PersistentState.set data fs k v false).data = dictSet data k v ∧
    (∀ dflt, PersistentState.get (PersistentState.set data fs k v false).data k dflt = v) := by
  refine ⟨?_, ?_, ?_⟩
  · unfold PersistentState.set PersistentState.save
    rw [hmain]
    rfl
  · rfl
  · intro dflt
    show PersistentState.get (dictSet data k v) k dflt = v
    unfold PersistentState.get
    rw [dictGet_dictSet_self]
    rfl

/-- C6 (witness). -/
theorem save_failure_keeps_backup_witness :
    (PersistentState.set [("x", 7)] (⟨some (FileContent.plain [("x", 7)]), none, none⟩ : FSState Nat) "y" 9 false).fs.backup
      = some (FileContent.plain [("x", 7)]) ∧
    (PersistentState.set [("x", 7)] (⟨some (FileContent.plain [("x", 7)]), none, none⟩ : FSState Nat) "y" 9 false).data
      = dictSet [("x", 7)] "y" 9 ∧
    (∀ dflt, PersistentState.get
        (PersistentState.set [("x", 7)] (⟨some (FileContent.plain [("x", 7)]), none, none⟩ : FSState Nat) "y" 9 false).data "y" dflt = 9) :=
  save_failure_keeps_backup [("x", 7)] ⟨some (FileContent.plain [("x", 7)]), none, none⟩
    "y" 9 (FileContent.plain [("x", 7)]) rfl

/-- C7 (counterexample): with a failing primary write, `set` still finishes
with the very same observable outcome as a successful `set` — the `except`
clause inside `save` swallows the failure (it only logs), so no error outcome
reaches the caller. -/
theorem set_failure_outcome_ok :
    (PersistentState.set ([("a", 1)] : List (String × Nat))
        ⟨some (FileContent.plain [("a", 1)]), none, none⟩ "b" 2 false).outcome
      = Except.ok () ∧
    (PersistentState.set ([("a", 1)] : List (String × Nat))
        ⟨some (FileContent.plain [("a", 1)]), none, none⟩ "b" 2 false).outcome
      = (PersistentState.set ([("a", 1)] : List (String × Nat))
        ⟨some (FileContent.plain [("a", 1)]), none, none⟩ "b" 2 true).outcome ∧
    (PersistentState.set ([("a", 1)] : List (String × Nat))
        ⟨some (FileContent.plain [("a", 1)]), none, none⟩ "b" 2 false).loggedError = true := by
  decide

/-- C7 (amended): a persistence failure during `set` is logged inside `save`
but not surfaced: the call returns normally (`Except.ok ()`), exactly as a
successful call does. -/
theorem set_failure_logged_not_surfaced {α : Type} (data : List (String × α))
    (fs : FSState α) (k : String) (v : α) :
    (PersistentState.set data fs k v false).outcome = Except.ok () ∧
    (PersistentState.set data fs k v false).loggedError = true := by
  unfold PersistentState.set PersistentState.save
  cases fs.main <;> exact ⟨rfl, rfl⟩

/-- C8: even with the cryptographic capability available and a key freshly
generated and stored in the sibling key file, `save` writes the plain
serialized mapping — `_encryption_key` is never consulted by `save`, so the
store file is plaintext in the non-degraded case too. -/
theorem save_writes_plaintext_despite_key :
    (PersistentState.getOrCreateKey (α := Nat) ⟨none, none, none⟩ true 42).1 = some 42 ∧
    (PersistentState.save [("a", 1)]
        (PersistentState.getOrCreateKey (α := Nat) ⟨none, none, none⟩ true 42).2 true).fs.key_file
      = some 42 ∧
    (PersistentState.save [("a", 1)]
        (PersistentState.getOrCreateKey (α := Nat) ⟨none, none, none⟩ true 42).2 true).fs.main
      = some (FileContent.plain [("a", 1)]) := by
  decide

/-- C1: the forced-termination fallback can never rescue a failed graceful
stop.  `restart_server` invokes it as `['sudo', 'pkill', '-f',
'FactoryServer']`, and `validate_command` rejects the command name `sudo`
(absent from `ALLOWED_COMMANDS`) before the executor is consulted — even
though the bare `pkill -f` invocation it wraps is whitelisted.  So on an
executor where the graceful stop fails and every pkill invocation would
report success, the procedure still aborts with failure instead of
continuing to the start step. -/
theorem forced_stop_never_reaches_executor :
    validate_command "pkill" ["-f", "FactoryServer"] = true ∧
    validate_command "sudo" ["pkill", "-f", "FactoryServer"] = false ∧
    safe_subprocess ["sudo", "pkill", "-f", "FactoryServer"] exStopFails = none ∧
    restart_server initWatchdog "Watchdog: Server offline" exStopFails 0
      = (initWatchdog, false) := by
  decide

/-- A state whose `restart_history` already holds `max_restarts_per_hour = 3`
entries inside the trailing hour as of time 600. -/
def sFullHistory : WatchdogState :=
  { initWatchdog with
      restart_history := [⟨100, "r1", 1⟩, ⟨200, "r2", 2⟩, ⟨300, "r3", 3⟩] }

/-- C2 (counterexample): with the trailing-hour budget exhausted
(`can_restart = false`), the interactive `/force_restart` command still
invokes `restart_server`, and the restart goes through. -/
theorem force_restart_ignores_budget :
    can_restart sFullHistory 600 = false ∧
    (force_restart_cmd true true sFullHistory exAllOk 600).restartInvoked = true ∧
    (force_restart_cmd true true sFullHistory exAllOk 600).state.restart_count
      = sFullHistory.restart_count + 1 := by
  decide

/-- C2 (amended): the three threshold-triggered handlers invoke
`restart_server` only while `can_restart` holds on the pre-call state, but
the interactive force-restart trigger invokes it unconditionally once its
per-user rate-limit and permission gates pass. -/
theorem threshold_restarts_respect_budget (cfg : WatchdogConfig) (s : WatchdogState)
    (ex : Exec) (now memory_mb : Int) (cpu : Rat) (players : Int) (rateOk hasPerm : Bool) :
    ((handle_server_down cfg s ex now).restartInvoked = true → can_restart s now = true) ∧
    ((handle_high_memory cfg s memory_mb ex now).restartInvoked = true
      → can_restart s now = true) ∧
    ((handle_high_cpu cfg s cpu players ex now).restartInvoked = true
      → can_restart s now = true) ∧
    (rateOk = true → hasPerm = true
      → (force_restart_cmd rateOk hasPerm s ex now).restartInvoked = true) := by
  refine ⟨?_, ?_, ?_, ?_⟩
  · intro hinv
    have hcr : can_restart (gatedAlert { s with down_counter := s.down_counter + 1 }
        "server_down" now) now = can_restart s now :=
      can_restart_eq_of _ _ _ (gatedAlert_restart_history _ _ _)
        (gatedAlert_max_restarts _ _ _)
    simp only [handle_server_down] at hinv
    split_ifs at hinv <;> simp_all
  · intro hinv
    simp only [handle_high_memory] at hinv
    split_ifs at hinv <;> simp_all
  · intro hinv
    have hcr : can_restart (gatedAlert { s with high_cpu_counter := s.high_cpu_counter + 1 }
        "high_cpu" now) now = can_restart s now :=
      can_restart_eq_of _ _ _ (gatedAlert_restart_history _ _ _)
        (gatedAlert_max_restarts _ _ _)
    simp only [handle_high_cpu] at hinv
    split_ifs at hinv <;> simp_all
  · intro hr hp
    subst hr
    subst hp
    rfl

/-- C2 (witness): a down-threshold cycle that does invoke the restart,
yielding `can_restart` on the pre-call state. -/
theorem threshold_restarts_respect_budget_witness :
    can_restart { initWatchdog with down_counter := 1 } 0 = true :=
  (threshold_restarts_respect_budget defaultConfig
      { initWatchdog with down_counter := 1 } exAllOk 0 0 0 0 true true).1 (by decide)

/-- C9: a high-CPU sample (≥ 95%) that raises the counter to exactly
`CONTINUOUS_HIGH_CPU` while players are present performs no restart and sets
the counter back to `CONTINUOUS_HIGH_CPU - 2`, not 0. -/
theorem high_cpu_deferred_with_players (cfg : WatchdogConfig) (s : WatchdogState)
    (cpu : Rat) (players : Int) (ex : Exec) (now : Int)
    (hcpu : (95 : Rat) ≤ cpu) (hpl : 0 < players)
    (hcnt : s.high_cpu_counter = cfg.CONTINUOUS_HIGH_CPU - 1)
    (hT : (2 : Int) ≤ cfg.CONTINUOUS_HIGH_CPU) :
    (handle_high_cpu cfg s cpu players ex now).restartInvoked = false ∧
    (handle_high_cpu cfg s cpu players ex now).state.high_cpu_counter
      = cfg.CONTINUOUS_HIGH_CPU - 2 := by
  have hs2 : (gatedAlert { s with high_cpu_counter := s.high_cpu_counter + 1 }
      "high_cpu" now).high_cpu_counter = cfg.CONTINUOUS_HIGH_CPU := by
    rw [gatedAlert_high_cpu_counter]
    show s.high_cpu_counter + 1 = cfg.CONTINUOUS_HIGH_CPU
    omega
  unfold handle_high_cpu
  rw [if_pos hcpu, if_pos (le_of_eq hs2.symm), if_pos hpl]
  refine ⟨rfl, ?_⟩
  show max (cfg.CONTINUOUS_HIGH_CPU - 2) 0 = cfg.CONTINUOUS_HIGH_CPU - 2
  exact max_eq_left (by omega)

/-- C9 (witness): default configuration, counter at 4, CPU 96%, 3 players. -/
theorem high_cpu_deferred_with_players_witness :
    (handle_high_cpu defaultConfig { initWatchdog with high_cpu_counter := 4 }
        96 3 exNone 0).restartInvoked = false ∧
    (handle_high_cpu defaultConfig { initWatchdog with high_cpu_counter := 4 }
        96 3 exNone 0).state.high_cpu_counter
      = defaultConfig.CONTINUOUS_HIGH_CPU - 2 :=
  high_cpu_deferred_with_players defaultConfig { initWatchdog with high_cpu_counter := 4 }
    96 3 exNone 0 (by norm_num) (by decide) (by decide) (by decide)

/-- C10: a failed `restart_server` call leaves `restart_count`,
`last_restart` and `restart_history` untouched (every failure return happens
before the success bookkeeping), so a failed attempt consumes no trailing-hour
budget and `can_restart` is unchanged at every time. -/
theorem restart_failure_preserves_state (s : WatchdogState) (reason : String)
    (ex : Exec) (now : Int) (h : (restart_server s reason ex now).2 = false) :
    (restart_server s reason ex now).1.restart_count = s.restart_count ∧
    (restart_server s reason ex now).1.last_restart = s.last_restart ∧
    (restart_server s reason ex now).1.restart_history = s.restart_history ∧
    (∀ t, can_restart (restart_server s reason ex now).1 t = can_restart s t) := by
  have hfst : (restart_server s reason ex now).1 = s := by
    simp only [restart_server] at h ⊢
    split_ifs at h ⊢ <;> simp_all
  rw [hfst]
  exact ⟨rfl, rfl, rfl, fun _ => rfl⟩

/-- C10 (witness): on the always-failing executor the restart fails and the
budget-relevant fields are untouched. -/
theorem restart_failure_preserves_state_witness :
    (restart_server initWatchdog "r" exNone 0).1.restart_count
      = initWatchdog.restart_count ∧
    (restart_server initWatchdog "r" exNone 0).1.last_restart
      = initWatchdog.last_restart ∧
    (restart_server initWatchdog "r" exNone 0).1.restart_history
      = initWatchdog.restart_history ∧
    (∀ t, can_restart (restart_server initWatchdog "r" exNone 0).1 t
      = can_restart initWatchdog t) :=
  restart_failure_preserves_state initWatchdog "r" exNone 0 (by decide)

/-! ## C3: the sliding-window bound for the rate limiter -/

/-- `GlobalRateLimiter.allow` is the bucket algorithm applied to the caller's
deque. -/
theorem GlobalRateLimiter.allow_eq_bucket (rl : GlobalRateLimiter) (uid now : Int) :
    (rl.allow uid now).2
      = (allowBucket rl.max_calls rl.per
          (((rl.store.find? fun p => p.1 == uid).map Prod.snd).getD []) now).2 := rfl

/-- Pruning drops a prefix of entries that are strictly older than the
window. -/
theorem pruneOld_decomp (now per : Int) (l : List Int) :
    ∃ pre, l = pre ++ pruneOld now per l ∧ ∀ x ∈ pre, per < now - x := by
  induction l with
  | nil => exact ⟨[], rfl, by simp⟩
  | cons t rest ih =>
    by_cases h : per < now - t
    · obtain ⟨pre, heq, hall⟩ := ih
      have hstep : pruneOld now per (t :: rest) = pruneOld now per rest := by
        simp [pruneOld, h]
      refine ⟨t :: pre, ?_, ?_⟩
      · rw [hstep]
        show t :: rest = t :: (pre ++ pruneOld now per rest)
        rw [← heq]
      · intro x hx
        rcases List.mem_cons.mp hx with hx | hx
        · subst hx; exact h
        · exact hall x hx
    · exact ⟨[], by simp [pruneOld, h], by simp⟩

theorem length_filter_mono (p q : Int → Bool) (l : List Int)
    (h : ∀ x ∈ l, p x = true → q x = true) :
    (l.filter p).length ≤ (l.filter q).length := by
  induction l with
  | nil => simp
  | cons x l ih =>
    have ih' := ih fun y hy hpy => h y (List.mem_cons_of_mem x hy) hpy
    by_cases hp : p x = true
    · have hq := h x (List.mem_cons_self x l) hp
      simp [List.filter_cons, hp, hq]
      exact ih'
    · cases hq : q x
      · simp [List.filter_cons, hp, hq]
        exact ih'
      · simp [List.filter_cons, hp, hq]
        exact le_trans ih' (Nat.le_succ _)

theorem countIn_append (l₁ l₂ : List Int) (a b : Int) :
    countIn (l₁ ++ l₂) a b = countIn l₁ a b + countIn l₂ a b := by
  simp [countIn, List.filter_append]

theorem countIn_eq_zero (l : List Int) (a b : Int) (h : ∀ x ∈ l, ¬(a ≤ x ∧ x ≤ b)) :
    countIn l a b = 0 := by
  unfold countIn
  have : l.filter (fun g => decide (a ≤ g) && decide (g ≤ b)) = [] :=
    List.filter_eq_nil_iff.mpr (by intro x hx; simpa using h x hx)
  rw [this]
  rfl

theorem countIn_le_length (l : List Int) (a b : Int) : countIn l a b ≤ l.length :=
  List.length_filter_le _ _

theorem countIn_mono_window (l : List Int) (a b a' b' : Int)
    (h : ∀ x ∈ l, a ≤ x → x ≤ b → a' ≤ x ∧ x ≤ b') :
    countIn l a b ≤ countIn l a' b' := by
  apply length_filter_mono
  intro x hx hp
  simp only [Bool.and_eq_true, decide_eq_true_eq] at hp ⊢
  exact h x hx hp.1 hp.2

/-- At most `m` granted calls inside any window `[a, b]` of length at most
`per`. -/
def windowBounded (m : Nat) (per : Int) (G : List Int) : Prop :=
  ∀ a b : Int, b - a ≤ per → countIn G a b ≤ m

/-- Trace invariant for `runCalls`: `G` is the grant history so far, `calls`
the surviving deque (a suffix of `G` whose dropped prefix is strictly out of
window at the last call time `T`), all grants happened at or before `T`, and
the window bound holds for `G`.  Then the bound holds after any further
nondecreasing call sequence. -/
theorem runCalls_window_aux (m : Nat) (per : Int) (ts : List Int) :
    ∀ (T : Int) (G calls : List Int),
      List.Chain (· ≤ ·) T ts →
      (∃ pre, G = pre ++ calls ∧ ∀ x ∈ pre, per < T - x) →
      (∀ g ∈ G, g ≤ T) →
      windowBounded m per G →
      windowBounded m per (G ++ (runCalls m per calls ts).2) := by
  induction ts with
  | nil =>
    intro T G calls _ _ _ hWB
    simpa [runCalls] using hWB
  | cons now ts ih =>
    intro T G calls hchain hdecomp hG hWB
    obtain ⟨hTnow, hchain'⟩ := List.chain_cons.mp hchain
    obtain ⟨pre, hGeq, hpre⟩ := hdecomp
    obtain ⟨dropped, hcalls, hdropped⟩ := pruneOld_decomp now per calls
    have hGeq2 : G = (pre ++ dropped) ++ pruneOld now per calls := by
      rw [List.append_assoc, ← hcalls]
      exact hGeq
    by_cases hlen : m ≤ (pruneOld now per calls).length
    · -- denied: the deque is pruned, no grant is recorded
      have hrun : (runCalls m per calls (now :: ts)).2
          = (runCalls m per (pruneOld now per calls) ts).2 := by
        simp [runCalls, allowBucket, hlen]
      rw [hrun]
      apply ih now G (pruneOld now per calls) hchain'
      · refine ⟨pre ++ dropped, hGeq2, ?_⟩
        intro x hx
        rcases List.mem_append.mp hx with hx | hx
        · have := hpre x hx; omega
        · exact hdropped x hx
      · intro g hg
        exact le_trans (hG g hg) hTnow
      · exact hWB
    · -- granted: `now` is appended to both the deque and the grant list
      have hrun : (runCalls m per calls (now :: ts)).2
          = now :: (runCalls m per (pruneOld now per calls ++ [now]) ts).2 := by
        simp [runCalls, allowBucket, hlen]
      rw [hrun, List.append_cons]
      apply ih now (G ++ [now]) (pruneOld now per calls ++ [now]) hchain'
      · refine ⟨pre ++ dropped, ?_, ?_⟩
        · rw [hGeq2, List.append_assoc]
        · intro x hx
          rcases List.mem_append.mp hx with hx | hx
          · have := hpre x hx; omega
          · exact hdropped x hx
      · intro g hg
        rcases List.mem_append.mp hg with hg | hg
        · exact le_trans (hG g hg) hTnow
        · simp at hg; omega
      · -- the window bound extends to the new grant
        intro a b hab
        rw [countIn_append]
        by_cases hnw : a ≤ now ∧ now ≤ b
        · have h1 : countIn [now] a b = 1 := by
            have hcond : (decide (a ≤ now) && decide (now ≤ b)) = true := by
              simp [hnw.1, hnw.2]
            simp [countIn, List.filter_cons, hcond]
          rw [h1]
          have hsub : countIn G a b ≤ countIn G (now - per) now := by
            apply countIn_mono_window
            intro x hx hax hxb
            have hxT := hG x hx
            constructor
            · omega
            · omega
          have hGbound : countIn G (now - per) now ≤ (pruneOld now per calls).length := by
            rw [hGeq2, countIn_append, countIn_append]
            have hp0 : countIn pre (now - per) now = 0 :=
              countIn_eq_zero _ _ _ (by intro x hx; have := hpre x hx; omega)
            have hd0 : countIn dropped (now - per) now = 0 :=
              countIn_eq_zero _ _ _ (by intro x hx; have := hdropped x hx; omega)
            rw [hp0, hd0]
            simpa using countIn_le_length (pruneOld now per calls) (now - per) now
          omega
        · have h0 : countIn [now] a b = 0 := by
            apply countIn_eq_zero
            intro x hx
            have : x = now := by simpa using hx
            subst this
            exact hnw
          rw [h0]
          simpa using hWB a b hab

/-- C3 (amended): for every nondecreasing sequence of timed calls against one
key's deque, at most `max_calls` calls are granted inside any trailing window
of length `per` — with the window inclusive on its old side: a recorded call
whose age is exactly `per` is not pruned and still counts against a new
call. -/
theorem rate_limiter_sliding_window (m : Nat) (per : Int) (ts : List Int)
    (hts : List.Chain' (· ≤ ·) ts) (a b : Int) (hw : b - a ≤ per) :
    countIn (runCalls m per [] ts).2 a b ≤ m ∧
    (∀ now x rest, now - x = per → pruneOld now per (x :: rest) = x :: rest) := by
  constructor
  · cases ts with
    | nil => simp [runCalls, countIn]
    | cons t ts' =>
      have hts' : List.Chain (· ≤ ·) t ts' := hts
      have hchain : List.Chain (· ≤ ·) t (t :: ts') :=
        List.chain_cons.mpr ⟨le_refl t, hts'⟩
      have haux := runCalls_window_aux m per (t :: ts') t [] []
        hchain ⟨[], rfl, by simp⟩ (by simp) (by intro a' b' _; simp [countIn])
      simpa using haux a b hw
  · intro now x rest h
    show (if per < now - x then pruneOld now per rest else x :: rest) = x :: rest
    rw [h]
    simp

/-- C3 (witness): four calls, three granted, never more than three in any
length-10 window. -/
theorem rate_limiter_sliding_window_witness :
    countIn (runCalls 3 10 [] [0, 4, 5, 11]).2 0 10 ≤ 3 ∧
    (∀ now x rest, now - x = (10 : Int) → pruneOld now 10 (x :: rest) = x :: rest) :=
  rate_limiter_sliding_window 3 10 [0, 4, 5, 11]
    (show List.Chain (· ≤ ·) 0 [4, 5, 11] from
      List.Chain.cons (by norm_num)
        (List.Chain.cons (by norm_num) (List.Chain.cons (by norm_num) List.Chain.nil)))
    0 10 (by decide)

/-- C3 (counterexample): a recorded call whose age equals exactly the window
length still counts.  With `max_calls = 1`, `per = 10`, a call granted at
time 0 and a new call at time 10: the old entry is not pruned
(`10 - 0 > 10` is false) and the new call is denied — the claim's exclusive
boundary would have granted it. -/
theorem boundary_call_still_counts :
    allowBucket 1 10 [0] 10 = ([0], false) ∧
    (runCalls 1 10 [] [0, 10]).2 = [0] := by decide
